import Mathlib

/-!
Verification of the macro-calculator core (src/app.py) against its
specification.  The pipeline is embedded shallowly over ℚ: every Python
float computation becomes exact rational arithmetic, `None`-able values
become `Option ℚ`, and the Streamlit enumerated widgets become closed
inductive types.  Python's `round` (round-half-to-even on the exact value)
is modelled by `pyRound`.
-/

namespace MacroCalc

/-- Python 3 `round` to an integer: round half to even. -/
def pyRound (q : ℚ) : ℤ :=
  if q - ⌊q⌋ < 1/2 then ⌊q⌋
  else if 1/2 < q - ⌊q⌋ then ⌊q⌋ + 1
  else if ⌊q⌋ % 2 = 0 then ⌊q⌋ else ⌊q⌋ + 1

/-- app.py lines 10-12: `round_n(n, d) = round((n + 1e-12) * 10^d) / 10^d`. -/
def round_n (n : ℚ) (d : ℕ) : ℚ :=
  ((pyRound ((n + 1/10^12) * 10 ^ d) : ℤ) : ℚ) / 10 ^ d

/-- app.py line 15. -/
def lb_to_kg (lb : ℚ) : ℚ := lb * 0.45359237

/-- app.py line 16. -/
def kg_to_lb (kg : ℚ) : ℚ := kg / 0.45359237

/-- app.py line 17. -/
def cm_to_in (cm : ℚ) : ℚ := cm / 2.54

/-- app.py line 18. -/
def in_to_cm (inch : ℚ) : ℚ := inch * 2.54

/-- The five activity choices of the `ACTIVITY` dict (app.py lines 21-27). -/
inductive Activity where
  | Sedentary | Light | Moderate | Very | Athlete
deriving DecidableEq, Repr

/-- app.py lines 21-27: the multiplier attached to each activity label. -/
def ACTIVITY : Activity → ℚ
  | .Sedentary => 1.2
  | .Light => 1.375
  | .Moderate => 1.55
  | .Very => 1.725
  | .Athlete => 1.9

inductive Sex where
  | Male | Female
deriving DecidableEq, Repr

/-- app.py lines 30-33.  The sex adjustment `s` is +5 for Male, −161 for
Female. -/
def mifflin_st_jeor (sex : Sex) (weight_kg height_cm age : ℚ) : ℚ :=
  10 * weight_kg + 6.25 * height_cm - 5 * age +
    (if sex = .Male then 5 else -161)

/-- app.py lines 35-37. -/
def katch_mc_ardle (lean_mass_kg : ℚ) : ℚ := 370 + 21.6 * lean_mass_kg

/-- The preset selectbox (app.py lines 88-93). -/
inductive Preset where
  | Custom | Cut | Recomp | LeanBulk
deriving DecidableEq, Repr

/-- The macro-style selectbox (app.py lines 96-100). -/
inductive Style where
  | Balanced | LowCarb | HighCarb
deriving DecidableEq, Repr

/-- Height/weight as entered, before unit normalization (app.py lines 55-66). -/
inductive HeightWeight where
  | imperial (ft inch weight_lb : ℚ)
  | metric (height_cm weight_kg : ℚ)
deriving DecidableEq, Repr

/-- All sidebar inputs of app.py (lines 51-100).  `body_fat` is `Option`
because line 104 tests `body_fat is not None`; the number-input widget
itself always supplies a value ≥ 0. -/
structure UserInput where
  sex : Sex
  age : ℚ
  hw : HeightWeight
  body_fat : Option ℚ
  activity : Activity
  base_calorie_delta_pct : ℚ
  override_calories : ℚ
  base_protein_per_lb : ℚ
  use_lean_mass : Bool
  base_fat_percent : ℚ
  meals : ℕ
  preset : Preset
  style : Style
deriving DecidableEq, Repr

/-- app.py lines 55-66: canonical height in cm. -/
def height_cm (i : UserInput) : ℚ :=
  match i.hw with
  | .imperial ft inch _ => in_to_cm (ft * 12 + inch)
  | .metric h _ => h

/-- app.py lines 55-66: canonical weight in kg. -/
def weight_kg (i : UserInput) : ℚ :=
  match i.hw with
  | .imperial _ _ wlb => lb_to_kg wlb
  | .metric _ w => w

/-- app.py lines 103-106: lean mass from the optional body-fat percent,
with the body fat clamped to [0,70]. -/
def lean_mass_kg (i : UserInput) : Option ℚ :=
  match i.body_fat with
  | none => none
  | some b =>
    if 0 ≤ b then
      some (weight_kg i * (1 - min (max b 0) 70 / 100))
    else none

inductive BmrMethod where
  | KatchMcArdle | MifflinStJeor
deriving DecidableEq, Repr

/-- app.py lines 109-114: BMR formula selection.  The `math.isnan` guard of
line 109 cannot fire over ℚ (a finite weight and a clamped body fat always
give a finite lean mass), so presence of `lean_mass_kg` is the whole test. -/
def bmr (i : UserInput) : ℚ :=
  match lean_mass_kg i with
  | some lm => katch_mc_ardle lm
  | none => mifflin_st_jeor i.sex (weight_kg i) (height_cm i) i.age

/-- app.py lines 109-114: which formula was chosen, for display/audit. -/
def bmr_method (i : UserInput) : BmrMethod :=
  match lean_mass_kg i with
  | some _ => .KatchMcArdle
  | none => .MifflinStJeor

/-- app.py line 116. -/
def tdee (i : UserInput) : ℚ := bmr i * ACTIVITY i.activity

/-- app.py lines 122, 135-149: effective calorie delta.  Starts from the
base slider value; a non-Custom preset overwrites it. -/
def calc_calorie_delta_pct (i : UserInput) : ℚ :=
  match i.preset with
  | .Custom => i.base_calorie_delta_pct
  | .Cut => -20
  | .Recomp => 0
  | .LeanBulk => 10

/-- app.py lines 123, 135-149: effective protein rate.  Starts from the
base slider value; a non-Custom preset can only raise it. -/
def calc_protein_per_lb (i : UserInput) : ℚ :=
  match i.preset with
  | .Custom => i.base_protein_per_lb
  | .Cut => max i.base_protein_per_lb 1.0
  | .Recomp => max i.base_protein_per_lb 0.9
  | .LeanBulk => max i.base_protein_per_lb 0.8

/-- app.py lines 124-149: effective fat percent.  Line 124 initializes it
to the base slider value, but the style if/elif/else of lines 127-132
overwrites it on every branch, so only the style value reaches the preset
step of lines 135-149. -/
def calc_fat_percent (i : UserInput) : ℚ :=
  let styled : ℚ :=
    match i.style with
    | .Balanced => 30
    | .LowCarb => 35
    | .HighCarb => 25
  match i.preset with
  | .Custom => styled
  | .Cut => max styled 25
  | .Recomp => if styled < 25 ∨ styled > 35 then 30 else styled
  | .LeanBulk => if styled < 25 ∨ styled > 35 then 30 else styled

inductive GoalSource where
  | Override | TdeeTimesGoal
deriving DecidableEq, Repr

/-- app.py lines 152-157: target calories.  The Python condition
`override_calories and override_calories > 0` is equivalent to
`override_calories > 0` for every number. -/
def target_cal (i : UserInput) : ℚ :=
  if 0 < i.override_calories then i.override_calories
  else tdee i * (1 + calc_calorie_delta_pct i / 100)

/-- app.py lines 152-157. -/
def goal_source (i : UserInput) : GoalSource :=
  if 0 < i.override_calories then .Override else .TdeeTimesGoal

/-- app.py lines 160-163: protein basis in pounds. -/
def basis_lb (i : UserInput) : ℚ :=
  match i.use_lean_mass, lean_mass_kg i with
  | true, some lm => kg_to_lb lm
  | _, _ => kg_to_lb (weight_kg i)

/-- app.py line 165. -/
def grams_protein (i : UserInput) : ℚ := basis_lb i * calc_protein_per_lb i

/-- app.py line 166. -/
def kcal_protein (i : UserInput) : ℚ := grams_protein i * 4

/-- app.py line 168. -/
def kcal_fat (i : UserInput) : ℚ := target_cal i * (calc_fat_percent i / 100)

/-- app.py line 169. -/
def grams_fat (i : UserInput) : ℚ := kcal_fat i / 9

/-- app.py line 171. -/
def kcal_carb (i : UserInput) : ℚ :=
  max (target_cal i - (kcal_protein i + kcal_fat i)) 0

/-- app.py line 172. -/
def grams_carb (i : UserInput) : ℚ := kcal_carb i / 4

/-- app.py line 174. -/
def pct_protein (i : UserInput) : ℚ :=
  if 0 < target_cal i then kcal_protein i / target_cal i * 100 else 0

/-- app.py line 175. -/
def pct_fat (i : UserInput) : ℚ :=
  if 0 < target_cal i then kcal_fat i / target_cal i * 100 else 0

/-- app.py line 176. -/
def pct_carb (i : UserInput) : ℚ :=
  if 0 < target_cal i then kcal_carb i / target_cal i * 100 else 0

/-- app.py line 186: the displayed percent-vs-TDEE delta. -/
def delta_pct (i : UserInput) : ℚ :=
  if 0 < tdee i then (target_cal i - tdee i) / tdee i * 100 else 0

/-- app.py line 187: the displayed delta, rounded to 1 decimal. -/
def display_delta_pct (i : UserInput) : ℚ := round_n (delta_pct i) 1

/-- app.py line 194: the displayed protein rate, rounded to 2 decimals. -/
def display_protein_per_lb (i : UserInput) : ℚ :=
  round_n (calc_protein_per_lb i) 2

/-- app.py line 213. -/
def per_meal_protein_g (i : UserInput) : ℚ :=
  if i.meals ≠ 0 then round_n (grams_protein i / i.meals) 1 else 0

/-- app.py line 214. -/
def per_meal_fat_g (i : UserInput) : ℚ :=
  if i.meals ≠ 0 then round_n (grams_fat i / i.meals) 1 else 0

/-- app.py line 215. -/
def per_meal_carbs_g (i : UserInput) : ℚ :=
  if i.meals ≠ 0 then round_n (grams_carb i / i.meals) 1 else 0

/-- The `inputs` object of the export payload (app.py lines 230-246). -/
structure ExportInputs where
  imperialUnits : Bool
  sex : Sex
  age : ℚ
  height_cm : ℚ
  weight_kg : ℚ
  bodyFatPct : Option ℚ
  activity : Activity
  calorieDeltaPct_applied : ℚ
  overrideCalories : ℚ
  proteinPerLb_applied : ℚ
  useLeanMassForProtein : Bool
  fatPercent_applied : ℚ
  meals : ℕ
  preset : Preset
  style : Style
deriving DecidableEq, Repr

/-- One macro row of the export payload (app.py lines 252-254). -/
structure MacroOut where
  g : ℚ
  kcal : ℚ
  pct : ℚ
deriving DecidableEq, Repr

/-- The `perMeal` object of the export payload (app.py lines 256-260). -/
structure PerMealOut where
  protein_g : ℚ
  fat_g : ℚ
  carbs_g : ℚ
deriving DecidableEq, Repr

/-- The `results` object of the export payload (app.py lines 247-261). -/
structure ExportResults where
  bmr : ℚ
  tdee : ℚ
  targetCalories : ℚ
  protein : MacroOut
  fat : MacroOut
  carbs : MacroOut
  perMeal : PerMealOut
deriving DecidableEq, Repr

/-- The whole export payload (app.py lines 229-262). -/
structure ExportPayload where
  inputs : ExportInputs
  results : ExportResults
deriving DecidableEq, Repr

/-- app.py lines 229-262: the JSON document offered for download.  The
`perMeal` fields round the already 1-decimal-rounded `per_meal` dict
values once more (lines 257-259). -/
def export_payload (i : UserInput) : ExportPayload where
  inputs :=
    { imperialUnits := match i.hw with | .imperial _ _ _ => true | .metric _ _ => false
      sex := i.sex
      age := i.age
      height_cm := round_n (height_cm i) 1
      weight_kg := round_n (weight_kg i) 1
      bodyFatPct := i.body_fat
      activity := i.activity
      calorieDeltaPct_applied := calc_calorie_delta_pct i
      overrideCalories := i.override_calories
      proteinPerLb_applied := calc_protein_per_lb i
      useLeanMassForProtein := i.use_lean_mass
      fatPercent_applied := calc_fat_percent i
      meals := i.meals
      preset := i.preset
      style := i.style }
  results :=
    { bmr := round_n (bmr i) 0
      tdee := round_n (tdee i) 0
      targetCalories := round_n (target_cal i) 0
      protein := { g := round_n (grams_protein i) 0
                   kcal := round_n (kcal_protein i) 0
                   pct := round_n (pct_protein i) 0 }
      fat := { g := round_n (grams_fat i) 0
               kcal := round_n (kcal_fat i) 0
               pct := round_n (pct_fat i) 0 }
      carbs := { g := round_n (grams_carb i) 0
                 kcal := round_n (kcal_carb i) 0
                 pct := round_n (pct_carb i) 0 }
      perMeal := { protein_g := round_n (per_meal_protein_g i) 1
                   fat_g := round_n (per_meal_fat_g i) 1
                   carbs_g := round_n (per_meal_carbs_g i) 1 } }

/-- The effective goal values actually used downstream (spec §3,
`EffectiveGoal`). -/
structure EffectiveGoal where
  calorie_delta_pct : ℚ
  protein_per_lb : ℚ
  fat_percent : ℚ
deriving DecidableEq, Repr

/-- The merged goal the code produces (app.py lines 122-149). -/
def effGoal (i : UserInput) : EffectiveGoal where
  calorie_delta_pct := calc_calorie_delta_pct i
  protein_per_lb := calc_protein_per_lb i
  fat_percent := calc_fat_percent i

/-- Goal-resolver merge written from the words of spec §4.5, for comparison
with `effGoal`: start from the base triple, let the style unconditionally
overwrite fat_percent, then apply the preset unless it is Custom. -/
def goalResolverSpec (baseDelta basePro _baseFat : ℚ) (s : Style) (p : Preset) :
    EffectiveGoal :=
  let fatAfterStyle : ℚ :=
    match s with
    | .Balanced => 30
    | .LowCarb => 35
    | .HighCarb => 25
  let g1 : EffectiveGoal := ⟨baseDelta, basePro, fatAfterStyle⟩
  match p with
  | .Custom => g1
  | .Cut => ⟨-20, max g1.protein_per_lb 1.0, max g1.fat_percent 25⟩
  | .Recomp =>
      ⟨0, max g1.protein_per_lb 0.9,
        if g1.fat_percent < 25 ∨ 35 < g1.fat_percent then 30 else g1.fat_percent⟩
  | .LeanBulk =>
      ⟨10, max g1.protein_per_lb 0.8,
        if g1.fat_percent < 25 ∨ 35 < g1.fat_percent then 30 else g1.fat_percent⟩

/-- The input of the spec's worked BMR example: Male, 30 y, 178 cm, 77.1 kg,
body fat entered as 0 (the widget's way of leaving the optional field empty). -/
def c1_input : UserInput where
  sex := .Male
  age := 30
  hw := .metric 178 77.1
  body_fat := some 0
  activity := .Moderate
  base_calorie_delta_pct := 0
  override_calories := 0
  base_protein_per_lb := 0.9
  use_lean_mass := true
  base_fat_percent := 30
  meals := 3
  preset := .Custom
  style := .Balanced

/-- Claim C1: evaluation of the code at the spec's worked example.  The spec
(and the app's own caption and help text, which say Katch–McArdle is used
only "if body fat % is provided/set") expects body_fat = 0 to fall back to
Mifflin–St Jeor with BMR 1738.5.  The code's test `body_fat >= 0` (line 104)
accepts 0, so it computes lean mass equal to the full body weight and reports
Katch–McArdle with BMR 370 + 21.6 × 77.1 = 2035.36; the Mifflin branch is
unreachable for every value the widget can supply. -/
theorem claim_c1_eval :
    bmr_method c1_input = .KatchMcArdle ∧
    bmr c1_input = 2035.36 ∧
    mifflin_st_jeor .Male 77.1 178 30 = 1738.5 := by
  refine ⟨rfl, ?_, ?_⟩ <;>
    norm_num [bmr, lean_mass_kg, c1_input, weight_kg, katch_mc_ardle,
      mifflin_st_jeor]

/-- Claim C2: the merged effective goal equals the spec §4.5 merge (style
overwrites fat percent first, then a non-Custom preset adjusts delta,
protein and fat), and the downstream target-calorie and macro computations
consume exactly its three fields. -/
theorem claim_c2 (i : UserInput) :
    effGoal i = goalResolverSpec i.base_calorie_delta_pct i.base_protein_per_lb
      i.base_fat_percent i.style i.preset ∧
    target_cal i = (if 0 < i.override_calories then i.override_calories
      else tdee i * (1 + (effGoal i).calorie_delta_pct / 100)) ∧
    grams_protein i = basis_lb i * (effGoal i).protein_per_lb ∧
    kcal_fat i = target_cal i * ((effGoal i).fat_percent / 100) := by
  refine ⟨?_, rfl, rfl, rfl⟩
  cases hp : i.preset <;> cases hs : i.style <;>
    simp [effGoal, goalResolverSpec, calc_calorie_delta_pct,
      calc_protein_per_lb, calc_fat_percent, hp, hs]

/-- Claim C3: TDEE is BMR times the activity multiplier, the multiplier is
one of the five enumerated values, and the target calories come from the
override when it is positive (goal source Override) and from
TDEE × (1 + delta/100) otherwise (goal source TdeeTimesGoal). -/
theorem claim_c3 (i : UserInput) :
    tdee i = bmr i * ACTIVITY i.activity ∧
    (ACTIVITY i.activity = 1.2 ∨ ACTIVITY i.activity = 1.375 ∨
      ACTIVITY i.activity = 1.55 ∨ ACTIVITY i.activity = 1.725 ∨
      ACTIVITY i.activity = 1.9) ∧
    (if 0 < i.override_calories then
        target_cal i = i.override_calories ∧ goal_source i = .Override
      else
        target_cal i = tdee i * (1 + calc_calorie_delta_pct i / 100) ∧
          goal_source i = .TdeeTimesGoal) := by
  refine ⟨rfl, ?_, ?_⟩
  · cases i.activity <;> simp [ACTIVITY]
  · by_cases h : 0 < i.override_calories <;>
      simp [target_cal, goal_source, h]

/-- Claim C4: the protein basis is lean mass in pounds when requested and
available, else body weight in pounds; protein grams scale the basis by the
effective rate at 4 kcal/g; fat calories are the effective percentage of the
target at 9 kcal/g; carbs absorb the remainder, clamped at zero, at 4 kcal/g
— and the protein and fat formulas are independent of the clamp. -/
theorem claim_c4 (i : UserInput) :
    basis_lb i = (if i.use_lean_mass ∧ (lean_mass_kg i).isSome then
      kg_to_lb ((lean_mass_kg i).getD 0) else kg_to_lb (weight_kg i)) ∧
    grams_protein i = basis_lb i * calc_protein_per_lb i ∧
    kcal_protein i = grams_protein i * 4 ∧
    kcal_fat i = target_cal i * (calc_fat_percent i / 100) ∧
    grams_fat i = kcal_fat i / 9 ∧
    kcal_carb i = max (target_cal i - (kcal_protein i + kcal_fat i)) 0 ∧
    grams_carb i = kcal_carb i / 4 := by
  refine ⟨?_, rfl, rfl, rfl, rfl, rfl, rfl⟩
  cases hu : i.use_lean_mass <;> cases hl : lean_mass_kg i <;>
    simp [basis_lb, hu, hl]

/-- Replace only the base fat-percent slider value, keeping every other
input identical. -/
def updBaseFat (i : UserInput) (f : ℚ) : UserInput :=
  ⟨i.sex, i.age, i.hw, i.body_fat, i.activity, i.base_calorie_delta_pct,
    i.override_calories, i.base_protein_per_lb, i.use_lean_mass, f,
    i.meals, i.preset, i.style⟩

/-- Claim C10: two inputs that differ only in the base fat-percent slider
produce identical results everywhere — BMR, TDEE, target calories, all
macro grams/kcal/percentages, per-meal values and the full export payload —
because the style unconditionally overwrites fat_percent before any use. -/
theorem claim_c10 (i : UserInput) (f1 f2 : ℚ) :
    bmr (updBaseFat i f1) = bmr (updBaseFat i f2) ∧
    tdee (updBaseFat i f1) = tdee (updBaseFat i f2) ∧
    target_cal (updBaseFat i f1) = target_cal (updBaseFat i f2) ∧
    effGoal (updBaseFat i f1) = effGoal (updBaseFat i f2) ∧
    grams_protein (updBaseFat i f1) = grams_protein (updBaseFat i f2) ∧
    kcal_protein (updBaseFat i f1) = kcal_protein (updBaseFat i f2) ∧
    grams_fat (updBaseFat i f1) = grams_fat (updBaseFat i f2) ∧
    kcal_fat (updBaseFat i f1) = kcal_fat (updBaseFat i f2) ∧
    grams_carb (updBaseFat i f1) = grams_carb (updBaseFat i f2) ∧
    kcal_carb (updBaseFat i f1) = kcal_carb (updBaseFat i f2) ∧
    pct_protein (updBaseFat i f1) = pct_protein (updBaseFat i f2) ∧
    pct_fat (updBaseFat i f1) = pct_fat (updBaseFat i f2) ∧
    pct_carb (updBaseFat i f1) = pct_carb (updBaseFat i f2) ∧
    per_meal_protein_g (updBaseFat i f1) = per_meal_protein_g (updBaseFat i f2) ∧
    per_meal_fat_g (updBaseFat i f1) = per_meal_fat_g (updBaseFat i f2) ∧
    per_meal_carbs_g (updBaseFat i f1) = per_meal_carbs_g (updBaseFat i f2) ∧
    export_payload (updBaseFat i f1) = export_payload (updBaseFat i f2) := by
  exact ⟨rfl, rfl, rfl, rfl, rfl, rfl, rfl, rfl, rfl, rfl, rfl, rfl, rfl,
    rfl, rfl, rfl, rfl⟩

/-- Claim C5: when the target covers protein + fat, the three kcal
components sum exactly to the target, and (for a positive target) the three
percentages sum exactly to 100. -/
theorem claim_c5 (i : UserInput)
    (h : kcal_protein i + kcal_fat i ≤ target_cal i) :
    kcal_protein i + kcal_fat i + kcal_carb i = target_cal i ∧
    (0 < target_cal i → pct_protein i + pct_fat i + pct_carb i = 100) := by
  have hc : kcal_carb i = target_cal i - (kcal_protein i + kcal_fat i) :=
    max_eq_left (by linarith)
  constructor
  · rw [hc]; ring
  · intro ht
    have hne : target_cal i ≠ 0 := ne_of_gt ht
    simp only [pct_protein, pct_fat, pct_carb, if_pos ht]
    rw [hc]
    field_simp
    ring

/-- Concrete input for the C5 witness: 77.1 kg, 178 cm, no body fat given,
moderate activity, all goal settings at their defaults. -/
def w5 : UserInput :=
  ⟨.Male, 30, .metric 178 77.1, none, .Moderate, 0, 0, 0.9, false, 30, 3,
    .Custom, .Balanced⟩

/-- Witness for C5 at `w5`, where the target covers protein + fat. -/
theorem claim_c5_witness :
    kcal_protein w5 + kcal_fat w5 ≤ target_cal w5 ∧ 0 < target_cal w5 ∧
    kcal_protein w5 + kcal_fat w5 + kcal_carb w5 = target_cal w5 ∧
    pct_protein w5 + pct_fat w5 + pct_carb w5 = 100 := by
  have h : kcal_protein w5 + kcal_fat w5 ≤ target_cal w5 := by
    norm_num [w5, kcal_protein, grams_protein, basis_lb, lean_mass_kg,
      kg_to_lb, weight_kg, height_cm, kcal_fat, target_cal, tdee, bmr,
      mifflin_st_jeor, katch_mc_ardle, ACTIVITY, calc_protein_per_lb,
      calc_fat_percent, calc_calorie_delta_pct]
  have ht : 0 < target_cal w5 := by
    norm_num [w5, target_cal, tdee, bmr, lean_mass_kg, weight_kg, height_cm,
      mifflin_st_jeor, ACTIVITY, calc_calorie_delta_pct]
  exact ⟨h, ht, (claim_c5 w5 h).1, (claim_c5 w5 h).2 ht⟩

/-- The height/weight part of the spec §6 input contract, per unit system
(imperial: ft 3-8, in 0-11, lb 60-600; metric: cm 120-230, kg 30-250). -/
def hwValid : HeightWeight → Prop
  | .imperial ft inch wlb =>
      3 ≤ ft ∧ ft ≤ 8 ∧ 0 ≤ inch ∧ inch ≤ 11 ∧ 60 ≤ wlb ∧ wlb ≤ 600
  | .metric h w => 120 ≤ h ∧ h ≤ 230 ∧ 30 ≤ w ∧ w ≤ 250

instance (h : HeightWeight) : Decidable (hwValid h) := by
  cases h <;> (unfold hwValid; infer_instance)

/-- The optional body-fat part of the spec §6 input contract (0-70 when
supplied). -/
def bfValid : Option ℚ → Prop
  | none => True
  | some b => 0 ≤ b ∧ b ≤ 70

instance (b : Option ℚ) : Decidable (bfValid b) := by
  cases b <;> (unfold bfValid; infer_instance)

/-- The spec §6 input contract: every widget value inside its stated range. -/
def ValidInput (i : UserInput) : Prop :=
  14 ≤ i.age ∧ i.age ≤ 90 ∧ hwValid i.hw ∧ bfValid i.body_fat ∧
  -30 ≤ i.base_calorie_delta_pct ∧ i.base_calorie_delta_pct ≤ 20 ∧
  0 ≤ i.override_calories ∧
  0.6 ≤ i.base_protein_per_lb ∧ i.base_protein_per_lb ≤ 1.2 ∧
  20 ≤ i.base_fat_percent ∧ i.base_fat_percent ≤ 40 ∧
  1 ≤ i.meals

instance (i : UserInput) : Decidable (ValidInput i) := by
  unfold ValidInput; infer_instance

/-- Under the input contract the canonical weight is at least 27 kg and the
canonical height at least 91 cm. -/
lemma hw_bounds (i : UserInput) (h : hwValid i.hw) :
    27 ≤ weight_kg i ∧ 91 ≤ height_cm i := by
  rcases hhw : i.hw with ⟨ft, inch, wlb⟩ | ⟨hc, wc⟩ <;> rw [hhw] at h <;>
    simp only [hwValid] at h <;>
    simp only [weight_kg, height_cm, hhw, lb_to_kg, in_to_cm]
  · obtain ⟨h1, _, h3, _, h5, _⟩ := h
    constructor <;> nlinarith
  · obtain ⟨h1, _, h3, _⟩ := h
    constructor <;> linarith

/-- Whenever lean mass is computed from a positive weight it is nonnegative
(body fat is clamped to at most 70 %). -/
lemma lean_mass_nonneg (i : UserInput) (hw : 0 < weight_kg i) (lm : ℚ)
    (hl : lean_mass_kg i = some lm) : 0 ≤ lm := by
  unfold lean_mass_kg at hl
  rcases hb : i.body_fat with _ | b
  · rw [hb] at hl
    exact Option.noConfusion hl
  · simp only [hb] at hl
    by_cases h0 : 0 ≤ b
    · rw [if_pos h0, Option.some.injEq] at hl
      have hfac : 0 ≤ 1 - min (max b 0) 70 / 100 := by
        have hm : min (max b 0) 70 ≤ 70 := min_le_right _ _
        linarith
      rw [← hl]
      exact mul_nonneg (le_of_lt hw) hfac
    · rw [if_neg h0] at hl
      exact Option.noConfusion hl

/-- Under the input contract the BMR is positive on both branches. -/
lemma bmr_pos (i : UserInput) (hv : ValidInput i) : 0 < bmr i := by
  obtain ⟨ha1, ha2, hhw, _⟩ := hv
  obtain ⟨hw27, hh91⟩ := hw_bounds i hhw
  rcases hl : lean_mass_kg i with _ | lm <;> simp only [bmr, hl]
  · unfold mifflin_st_jeor
    have hs : (-161 : ℚ) ≤ (if i.sex = Sex.Male then (5 : ℚ) else -161) := by
      split <;> norm_num
    linarith
  · have h0 : 0 ≤ lm := lean_mass_nonneg i (by linarith) lm hl
    unfold katch_mc_ardle
    linarith

/-- The effective fat percent always lands in [25,35], whatever the base
slider says. -/
lemma calc_fat_bounds (i : UserInput) :
    25 ≤ calc_fat_percent i ∧ calc_fat_percent i ≤ 35 := by
  cases hp : i.preset <;> cases hs : i.style <;>
    norm_num [calc_fat_percent, hp, hs]

/-- The effective protein rate never drops below the base slider's lower
bound of 0.6. -/
lemma calc_protein_ge (i : UserInput) (hb : 0.6 ≤ i.base_protein_per_lb) :
    0.6 ≤ calc_protein_per_lb i := by
  cases hp : i.preset <;> simp only [calc_protein_per_lb, hp] <;>
    first
      | exact hb
      | exact le_trans hb (le_max_left _ _)

/-- Under the input contract the target calories are nonnegative: either a
positive override, or a nonnegative TDEE scaled by a delta factor that stays
at least 0.7. -/
lemma target_cal_nonneg (i : UserInput) (hv : ValidInput i) :
    0 ≤ target_cal i := by
  have hb := bmr_pos i hv
  obtain ⟨_, _, _, _, hd1, hd2, _⟩ := hv
  have hact : 0 < ACTIVITY i.activity := by
    cases i.activity <;> norm_num [ACTIVITY]
  have ht : 0 ≤ tdee i := le_of_lt (mul_pos hb hact)
  have hδ : 0 ≤ 1 + calc_calorie_delta_pct i / 100 := by
    cases hp : i.preset <;> simp only [calc_calorie_delta_pct, hp] <;> linarith
  unfold target_cal
  by_cases ho : 0 < i.override_calories
  · rw [if_pos ho]; linarith
  · rw [if_neg ho]; exact mul_nonneg ht hδ

/-- Claim C6: for every input inside the spec §6 contract, the daily
protein, fat and carbohydrate gram values are all nonnegative. -/
theorem claim_c6 (i : UserInput) (hv : ValidInput i) :
    0 ≤ grams_protein i ∧ 0 ≤ grams_fat i ∧ 0 ≤ grams_carb i := by
  have htarget : 0 ≤ target_cal i := target_cal_nonneg i hv
  obtain ⟨_, _, hhw, _, _, _, _, hp1, _⟩ := hv
  obtain ⟨hw27, _⟩ := hw_bounds i hhw
  have hwpos : 0 < weight_kg i := by linarith
  have hbasis : 0 ≤ basis_lb i := by
    rcases hl : lean_mass_kg i with _ | lm
    · cases hu : i.use_lean_mass <;>
        simp only [basis_lb, hu, hl, kg_to_lb] <;>
        exact div_nonneg (le_of_lt hwpos) (by norm_num)
    · have hlm : 0 ≤ lm := lean_mass_nonneg i hwpos lm hl
      cases hu : i.use_lean_mass <;> simp only [basis_lb, hu, hl, kg_to_lb]
      · exact div_nonneg (le_of_lt hwpos) (by norm_num)
      · exact div_nonneg hlm (by norm_num)
  have hpro : 0 ≤ calc_protein_per_lb i := by
    have := calc_protein_ge i hp1
    linarith
  have hfatp : 0 ≤ calc_fat_percent i := by
    have := (calc_fat_bounds i).1
    linarith
  refine ⟨mul_nonneg hbasis hpro, ?_, ?_⟩
  · unfold grams_fat kcal_fat
    have h1 : 0 ≤ target_cal i * (calc_fat_percent i / 100) :=
      mul_nonneg htarget (div_nonneg hfatp (by norm_num))
    linarith
  · unfold grams_carb kcal_carb
    have h0 : (0 : ℚ) ≤ max (target_cal i - (kcal_protein i + kcal_fat i)) 0 :=
      le_max_right _ _
    linarith

/-- Concrete input for the C6 witness, inside every contract range. -/
def w6 : UserInput :=
  ⟨.Female, 30, .metric 165 60, some 25, .Light, -10, 0, 0.8, true, 25, 4,
    .Cut, .LowCarb⟩

/-- Witness for C6 at the in-contract input `w6`. -/
theorem claim_c6_witness :
    ValidInput w6 ∧
    (0 ≤ grams_protein w6 ∧ 0 ≤ grams_fat w6 ∧ 0 ≤ grams_carb w6) := by
  have hv : ValidInput w6 := by
    norm_num [ValidInput, hwValid, bfValid, w6]
  exact ⟨hv, claim_c6 w6 hv⟩

/-- Claim C7: the division-by-zero policies of the core.  A zero TDEE with
no override gives zero target calories; a nonpositive target makes every
macro percentage 0 instead of dividing; a zero meal count makes every
per-meal gram value 0 instead of dividing.  (Over this embedding every
pipeline function is total, so no input can raise.) -/
theorem claim_c7 (i : UserInput) :
    (tdee i = 0 → i.override_calories ≤ 0 → target_cal i = 0) ∧
    (target_cal i ≤ 0 →
      pct_protein i = 0 ∧ pct_fat i = 0 ∧ pct_carb i = 0) ∧
    (i.meals = 0 →
      per_meal_protein_g i = 0 ∧ per_meal_fat_g i = 0 ∧
        per_meal_carbs_g i = 0) := by
  refine ⟨?_, ?_, ?_⟩
  · intro h0 hov
    rw [target_cal, if_neg (not_lt.mpr hov), h0, zero_mul]
  · intro ht
    have hnt : ¬ 0 < target_cal i := not_lt.mpr ht
    simp [pct_protein, pct_fat, pct_carb, hnt]
  · intro hm
    simp [per_meal_protein_g, per_meal_fat_g, per_meal_carbs_g, hm]

/-- Degenerate input for the C7 witness: a Mifflin BMR of exactly zero
(Female, age 0, height 0, weight 16.1 kg), no override, zero meals. -/
def i7 : UserInput :=
  ⟨.Female, 0, .metric 0 16.1, none, .Sedentary, 0, 0, 0.9, false, 30, 0,
    .Custom, .Balanced⟩

/-- Witness for C7 at the degenerate input `i7`, where TDEE is 0, the
override is unset and the meal count is 0. -/
theorem claim_c7_witness :
    tdee i7 = 0 ∧ i7.override_calories ≤ 0 ∧ i7.meals = 0 ∧
    target_cal i7 = 0 ∧
    (pct_protein i7 = 0 ∧ pct_fat i7 = 0 ∧ pct_carb i7 = 0) ∧
    (per_meal_protein_g i7 = 0 ∧ per_meal_fat_g i7 = 0 ∧
      per_meal_carbs_g i7 = 0) := by
  obtain ⟨h1, h2, h3⟩ := claim_c7 i7
  have h0 : tdee i7 = 0 := by
    have hs : (if Sex.Female = Sex.Male then (5 : ℚ) else -161) = -161 :=
      if_neg (fun h => Sex.noConfusion h)
    norm_num [i7, tdee, bmr, lean_mass_kg, weight_kg, height_cm,
      mifflin_st_jeor, ACTIVITY, hs]
  have hov : i7.override_calories ≤ 0 := by norm_num [i7]
  have hm : i7.meals = 0 := rfl
  have ht : target_cal i7 = 0 := h1 h0 hov
  exact ⟨h0, hov, hm, ht, h2 (le_of_eq ht), h3 hm⟩

/-- Concrete input for the C8 witness. -/
def w8 : UserInput :=
  ⟨.Male, 40, .imperial 5 10 170, some 18, .Very, 5, 0, 1.0, true, 28, 4,
    .LeanBulk, .HighCarb⟩

/-- Claim C8: the pipeline is a pure function of its inputs — two runs with
identical input values agree on every computed field and on the entire
export document. -/
theorem claim_c8 (i j : UserInput) (h : i = j) :
    export_payload i = export_payload j ∧
    bmr i = bmr j ∧ bmr_method i = bmr_method j ∧ tdee i = tdee j ∧
    effGoal i = effGoal j ∧ target_cal i = target_cal j ∧
    goal_source i = goal_source j ∧
    grams_protein i = grams_protein j ∧ kcal_protein i = kcal_protein j ∧
    grams_fat i = grams_fat j ∧ kcal_fat i = kcal_fat j ∧
    grams_carb i = grams_carb j ∧ kcal_carb i = kcal_carb j ∧
    pct_protein i = pct_protein j ∧ pct_fat i = pct_fat j ∧
    pct_carb i = pct_carb j ∧
    per_meal_protein_g i = per_meal_protein_g j ∧
    per_meal_fat_g i = per_meal_fat_g j ∧
    per_meal_carbs_g i = per_meal_carbs_g j := by
  subst h
  exact ⟨rfl, rfl, rfl, rfl, rfl, rfl, rfl, rfl, rfl, rfl, rfl, rfl, rfl,
    rfl, rfl, rfl, rfl, rfl, rfl⟩

/-- Witness for C8: two textually identical runs at `w8` agree everywhere. -/
theorem claim_c8_witness :
    export_payload w8 = export_payload w8 ∧
    bmr w8 = bmr w8 ∧ bmr_method w8 = bmr_method w8 ∧ tdee w8 = tdee w8 ∧
    effGoal w8 = effGoal w8 ∧ target_cal w8 = target_cal w8 ∧
    goal_source w8 = goal_source w8 ∧
    grams_protein w8 = grams_protein w8 ∧ kcal_protein w8 = kcal_protein w8 ∧
    grams_fat w8 = grams_fat w8 ∧ kcal_fat w8 = kcal_fat w8 ∧
    grams_carb w8 = grams_carb w8 ∧ kcal_carb w8 = kcal_carb w8 ∧
    pct_protein w8 = pct_protein w8 ∧ pct_fat w8 = pct_fat w8 ∧
    pct_carb w8 = pct_carb w8 ∧
    per_meal_protein_g w8 = per_meal_protein_g w8 ∧
    per_meal_fat_g w8 = per_meal_fat_g w8 ∧
    per_meal_carbs_g w8 = per_meal_carbs_g w8 :=
  claim_c8 w8 w8 rfl

/-- Adding a small nonnegative amount below one half to an integer does not
move Python's round. -/
lemma pyRound_int_add_small (k : ℤ) (e : ℚ) (h0 : 0 ≤ e) (h1 : e < 1/2) :
    pyRound ((k : ℚ) + e) = k := by
  have hf : ⌊(k : ℚ) + e⌋ = k := by
    rw [Int.floor_eq_iff]
    constructor
    · linarith
    · linarith
  unfold pyRound
  rw [hf]
  have he : (k : ℚ) + e - (k : ℚ) = e := by ring
  rw [he, if_pos h1]

/-- Rounding to one decimal is idempotent: re-rounding an already rounded
value does not change it (the 1e-12 bias is far below one half). -/
lemma round_n_one_idem (x : ℚ) : round_n (round_n x 1) 1 = round_n x 1 := by
  unfold round_n
  simp only [pow_one]
  have h1 : ((pyRound ((x + 1/10^12) * 10) : ℤ) : ℚ) / 10 + 1/10^12 =
      ((pyRound ((x + 1/10^12) * 10) : ℤ) : ℚ) / 10 + 1/10^12 := rfl
  have h2 : (((pyRound ((x + 1/10^12) * 10) : ℤ) : ℚ) / 10 + 1/10^12) * 10 =
      ((pyRound ((x + 1/10^12) * 10) : ℤ) : ℚ) + 1/10^11 := by ring
  rw [h2, pyRound_int_add_small _ (1/10^11) (by norm_num) (by norm_num)]

/-- Rounding zero to one decimal gives zero. -/
lemma round_n_zero_one : round_n 0 1 = 0 := by
  unfold round_n
  simp only [pow_one, zero_add]
  have h2 : (1/10^12 : ℚ) * 10 = ((0 : ℤ) : ℚ) + 1/10^11 := by norm_num
  rw [h2, pyRound_int_add_small 0 (1/10^11) (by norm_num) (by norm_num)]
  norm_num

/-- Claim C9 (amended): the actual rounding map of the export payload and
the display.  Computed results (bmr, tdee, targetCalories, macro
g/kcal/pct) are rounded to 0 decimals; per-meal grams to 1 decimal; among
the echoed inputs, height_cm and weight_kg are rounded to 1 decimal while
age, bodyFatPct, calorieDeltaPct_applied, overrideCalories,
proteinPerLb_applied and fatPercent_applied are exported unrounded; the
2-decimal protein rate and the 1-decimal delta-percent exist only in the
on-screen display.  All rounding is Python `round` applied after the 1e-12
bias. -/
theorem claim_c9 (i : UserInput) :
    (export_payload i).results.bmr = round_n (bmr i) 0 ∧
    (export_payload i).results.tdee = round_n (tdee i) 0 ∧
    (export_payload i).results.targetCalories = round_n (target_cal i) 0 ∧
    (export_payload i).results.protein.g = round_n (grams_protein i) 0 ∧
    (export_payload i).results.protein.kcal = round_n (kcal_protein i) 0 ∧
    (export_payload i).results.protein.pct = round_n (pct_protein i) 0 ∧
    (export_payload i).results.fat.g = round_n (grams_fat i) 0 ∧
    (export_payload i).results.fat.kcal = round_n (kcal_fat i) 0 ∧
    (export_payload i).results.fat.pct = round_n (pct_fat i) 0 ∧
    (export_payload i).results.carbs.g = round_n (grams_carb i) 0 ∧
    (export_payload i).results.carbs.kcal = round_n (kcal_carb i) 0 ∧
    (export_payload i).results.carbs.pct = round_n (pct_carb i) 0 ∧
    (export_payload i).results.perMeal.protein_g =
      (if i.meals ≠ 0 then round_n (grams_protein i / i.meals) 1 else 0) ∧
    (export_payload i).results.perMeal.fat_g =
      (if i.meals ≠ 0 then round_n (grams_fat i / i.meals) 1 else 0) ∧
    (export_payload i).results.perMeal.carbs_g =
      (if i.meals ≠ 0 then round_n (grams_carb i / i.meals) 1 else 0) ∧
    (export_payload i).inputs.height_cm = round_n (height_cm i) 1 ∧
    (export_payload i).inputs.weight_kg = round_n (weight_kg i) 1 ∧
    (export_payload i).inputs.age = i.age ∧
    (export_payload i).inputs.bodyFatPct = i.body_fat ∧
    (export_payload i).inputs.calorieDeltaPct_applied =
      calc_calorie_delta_pct i ∧
    (export_payload i).inputs.overrideCalories = i.override_calories ∧
    (export_payload i).inputs.proteinPerLb_applied = calc_protein_per_lb i ∧
    (export_payload i).inputs.fatPercent_applied = calc_fat_percent i ∧
    display_protein_per_lb i = round_n (calc_protein_per_lb i) 2 ∧
    display_delta_pct i = round_n (delta_pct i) 1 := by
  have hpm : ∀ x : ℚ,
      round_n (if i.meals ≠ 0 then round_n (x / i.meals) 1 else 0) 1 =
        (if i.meals ≠ 0 then round_n (x / i.meals) 1 else 0) := by
    intro x
    by_cases hm : i.meals = 0
    · simp only [hm, ne_eq, not_true_eq_false, if_false]
      exact round_n_zero_one
    · simp only [ne_eq, hm, not_false_eq_true, if_true]
      exact round_n_one_idem _
  refine ⟨rfl, rfl, rfl, rfl, rfl, rfl, rfl, rfl, rfl, rfl, rfl, rfl,
    ?_, ?_, ?_, rfl, rfl, rfl, rfl, rfl, rfl, rfl, rfl, rfl, rfl⟩
  · exact hpm (grams_protein i)
  · exact hpm (grams_fat i)
  · exact hpm (grams_carb i)

/-- Concrete input for the C9 counterexample: metric entry with
weight 77.1 kg. -/
def i9 : UserInput :=
  ⟨.Male, 30, .metric 178 77.1, some 18, .Moderate, 0, 0, 0.9, true, 30, 3,
    .Custom, .Balanced⟩

/-- Counterexample to C9 as stated: the exported weight_kg is not among the
claim's exceptions (protein_per_lb, per-meal grams, delta-percent), yet it
is written rounded to 1 decimal (77.1), not to 0 decimals (77). -/
theorem claim_c9_counterexample :
    (export_payload i9).inputs.weight_kg = round_n (weight_kg i9) 1 ∧
    round_n (weight_kg i9) 1 = 771/10 ∧
    round_n (weight_kg i9) 0 = 77 ∧
    (export_payload i9).inputs.weight_kg ≠ round_n (weight_kg i9) 0 := by
  have h1 : round_n (weight_kg i9) 1 = 771/10 := by
    have he : ((771 : ℤ) : ℚ) + 1/10^11 = (771/10 + 1/10^12) * 10^1 := by
      norm_num
    unfold round_n
    rw [show weight_kg i9 = 771/10 by norm_num [i9, weight_kg], ← he,
      pyRound_int_add_small 771 (1/10^11) (by norm_num) (by norm_num)]
    norm_num
  have h0 : round_n (weight_kg i9) 0 = 77 := by
    have he : ((77 : ℤ) : ℚ) + (1/10 + 1/10^12) = (771/10 + 1/10^12) * 10^0 := by
      norm_num
    unfold round_n
    rw [show weight_kg i9 = 771/10 by norm_num [i9, weight_kg], ← he,
      pyRound_int_add_small 77 (1/10 + 1/10^12) (by norm_num) (by norm_num)]
    norm_num
  refine ⟨rfl, h1, h0, ?_⟩
  rw [h0]
  have : (export_payload i9).inputs.weight_kg = round_n (weight_kg i9) 1 := rfl
  rw [this, h1]
  norm_num

end MacroCalc
